import Mathlib

/-!
Verification of the TruthAutonomy client library (`truthautonomy/api.py`,
`truthautonomy/models.py`, `truthautonomy/exceptions.py`) against its
natural-language specification.

The embedding is shallow: each Python function that the claims touch is
translated into an executable Lean definition.  The HTTP transport
(`cloudscraper`) is external to the library, so every operation that performs
requests takes the transport's responses as an explicit input trace and
returns, besides its result, the observable requests it issued.  Python
exceptions are modelled with `Except`; JSON values with the inductive
`JValue`; Python dicts with association lists (Python dicts have unique keys,
and `dict.get` returns the value stored under the key or a default).
-/

/-- A decoded JSON value, as produced by `response.json()`. -/
inductive JValue where
  | null : JValue
  | bool (b : Bool) : JValue
  | num (n : Int) : JValue
  | str (s : String) : JValue
  | arr (elems : List JValue) : JValue
  | obj (entries : List (String × JValue)) : JValue

/-- Python exceptions that the modelled code can raise.
`apiError` is `TruthSocialAPIError(status_code, message)` from
`exceptions.py`: it stores the HTTP status code and the raw body text. -/
inductive PyExc where
  | valueError (msg : String) : PyExc
  | apiError (status_code : Int) (message : String) : PyExc
  | attributeError : PyExc
  | typeError : PyExc
  | jsonDecodeError : PyExc
  | otherError : PyExc
deriving DecidableEq

/-- Python `d.get(k)` on a dict modelled as an association list. -/
def jget (d : List (String × JValue)) (k : String) : Option JValue :=
  (d.find? fun p => p.1 == k).map fun p => p.2

/-- Python `d.get(k, default)`. -/
def jgetD (d : List (String × JValue)) (k : String) (default : JValue) : JValue :=
  (jget d k).getD default

/-- Python `v.get(k)` where `v` is an arbitrary value: succeeds only when `v`
is a dict, every other value raises `AttributeError` (no `.get` attribute). -/
def pyDictGet (v : JValue) (k : String) : Except PyExc (Option JValue) :=
  match v with
  | .obj entries => .ok (jget entries k)
  | _ => .error .attributeError

/-- Python truthiness of a JSON value. -/
def jTruthy : JValue → Bool
  | .null => false
  | .bool b => b
  | .num n => n != 0
  | .str s => s != ""
  | .arr elems => !elems.isEmpty
  | .obj entries => !entries.isEmpty

/-- Python truthiness of an optional value (`None` is falsy). -/
def optTruthy : Option JValue → Bool
  | none => false
  | some v => jTruthy v

/-! ## models.py -/

/-- `MediaResponse` from `models.py`: every field is `data.get(<key>)`. -/
structure MediaResponse where
  id : Option JValue
  type : Option JValue
  url : Option JValue
  preview_url : Option JValue
  text_url : Option JValue
  meta : Option JValue

/-- The `MediaResponse.__init__` body (total: it only calls `data.get`). -/
def MediaResponse.ofData (data : List (String × JValue)) : MediaResponse :=
  { id := jget data "id"
    type := jget data "type"
    url := jget data "url"
    preview_url := jget data "preview_url"
    text_url := jget data "text_url"
    meta := jget data "meta" }

/-- `PostResponse` from `models.py`.  `tags` holds `tag.get("name")` for each
element of `data.get("tags", [])`; `account` is the five-entry dict built from
`data.get("account", {})`. -/
structure PostResponse where
  id : Option JValue
  created_at : Option JValue
  content : Option JValue
  visibility : Option JValue
  url : Option JValue
  replies_count : Option JValue
  reblogs_count : Option JValue
  favourites_count : Option JValue
  application : Option JValue
  tags : List (Option JValue)
  account : List (String × Option JValue)

/-- The list comprehension `[tag.get("name") for tag in tags]`: each element
must be a dict, otherwise `tag.get` raises `AttributeError`. -/
def tagNamesGo : List JValue → Except PyExc (List (Option JValue))
  | [] => .ok []
  | tag :: rest =>
    match tag with
    | .obj entries =>
      match tagNamesGo rest with
      | .ok names => .ok (jget entries "name" :: names)
      | .error e => .error e
    | _ => .error .attributeError

/-- Iterating `data.get("tags", [])`.  A JSON array iterates its elements.
A string iterates its characters (one-character strings) and a dict iterates
its keys (strings): when empty the comprehension yields `[]`, otherwise the
first iteration evaluates `tag.get("name")` on a `str`, which raises
`AttributeError`.  `None`, booleans and numbers are not iterable and raise
`TypeError`. -/
def tagNames : JValue → Except PyExc (List (Option JValue))
  | .arr elems => tagNamesGo elems
  | .str s => if s = "" then .ok [] else .error .attributeError
  | .obj entries => if entries.isEmpty then .ok [] else .error .attributeError
  | _ => .error .typeError

/-- The five-entry account summary built from `data.get("account", {})`;
`account_data.get(...)` requires a dict. -/
def accountSummary (v : JValue) : Except PyExc (List (String × Option JValue)) :=
  match v with
  | .obj entries =>
    .ok [("username", jget entries "username"),
         ("id", jget entries "id"),
         ("url", jget entries "url"),
         ("created_at", jget entries "created_at"),
         ("statuses_count", jget entries "statuses_count")]
  | _ => .error .attributeError

/-- The `PostResponse.__init__` body.  The simple fields are `data.get(...)`;
`application`, `tags` and `account` are computed in source order and the first
raised exception propagates. -/
def PostResponse.ofData (data : List (String × JValue)) : Except PyExc PostResponse :=
  match pyDictGet (jgetD data "application" (.obj [])) "name" with
  | .error e => .error e
  | .ok app =>
    match tagNames (jgetD data "tags" (.arr [])) with
    | .error e => .error e
    | .ok tagList =>
      match accountSummary (jgetD data "account" (.obj [])) with
      | .error e => .error e
      | .ok acct =>
        .ok { id := jget data "id"
              created_at := jget data "created_at"
              content := jget data "content"
              visibility := jget data "visibility"
              url := jget data "url"
              replies_count := jget data "replies_count"
              reblogs_count := jget data "reblogs_count"
              favourites_count := jget data "favourites_count"
              application := app
              tags := tagList
              account := acct }

/-! ## api.py : construction -/

/-- `TruthSocial.BASE_URL`. -/
def TruthSocial_BASE_URL : String := "https://truthsocial.com"

/-- The fixed User-Agent header value from `TruthSocial.__init__`. -/
def TruthSocial_UA : String :=
  "Mozilla/5.0 (Windows NT 10.0; Win64; x64) AppleWebKit/537.36 (KHTML, like Gecko) Chrome/114.0.0.0 Safari/537.36"

/-- The client state: the only instance attribute the claims concern is
`self.headers` (the `cloudscraper` session is the external transport). -/
structure Client where
  headers : List (String × String)
deriving DecidableEq

/-- `TruthSocial.__init__`: `if not auth_bearer: raise ValueError(...)`
(a `str` is falsy exactly when empty), then the fixed header dict is stored. -/
def TruthSocial_init (auth_bearer : String) : Except PyExc Client :=
  if auth_bearer = "" then
    .error (.valueError "Bearer token is required")
  else
    .ok { headers := [("Accept", "*/*"),
                      ("User-Agent", TruthSocial_UA),
                      ("Authorization", "Bearer " ++ auth_bearer),
                      ("Origin", TruthSocial_BASE_URL),
                      ("Referer", TruthSocial_BASE_URL)] }

/-- Lookup in a header dict (Python `headers[k]` / `headers.get(k)`). -/
def dictGet (h : List (String × String)) (k : String) : Option String :=
  (h.find? fun p => p.1 == k).map fun p => p.2

/-- The dict merge `{**h, k: v}`: an existing key is overwritten in place,
a new key is appended at the end. -/
def dictUpdate (h : List (String × String)) (k v : String) : List (String × String) :=
  if h.any fun p => p.1 == k then
    h.map fun p => if p.1 == k then (k, v) else p
  else
    h ++ [(k, v)]

/-! ## api.py : link-header parsing and the paginated fetch -/

/-- Worker for `splitOnChar`: accumulates the current piece in reverse. -/
def splitOnCharGo (sep : Char) : List Char → List Char → List String
  | [], acc => [String.mk acc.reverse]
  | c :: rest, acc =>
    if c = sep then String.mk acc.reverse :: splitOnCharGo sep rest []
    else splitOnCharGo sep rest (c :: acc)

/-- Python `s.split(sep)` for a one-character separator (both separators used
by `_get_next_page_link` are `","` and `";"`): every occurrence splits, the
empty string yields `[""]`. -/
def splitOnChar (sep : Char) (s : String) : List String :=
  splitOnCharGo sep s.toList []

/-- Python `s.strip()`: removes whitespace from both ends. -/
def pyStripWs (s : String) : String :=
  String.mk (((s.toList.dropWhile Char.isWhitespace).reverse.dropWhile
      Char.isWhitespace).reverse)

/-- Python `s.strip(chars)`: removes the characters of the set from both ends
of the string (and stops at the first character outside the set). -/
def stripSet (cs : List Char) (s : String) : String :=
  String.mk (((s.toList.dropWhile fun c => cs.contains c).reverse.dropWhile
      fun c => cs.contains c).reverse)

/-- `parts[0].strip("<>")` from `_get_next_page_link`. -/
def stripAngle (s : String) : String := stripSet ['<', '>'] s

/-- The per-segment test of `_get_next_page_link`:
`len(parts) == 2 and parts[1].strip() == 'rel="next"'` where
`parts = link.split(";")`. -/
def linkMatches (link : String) : Bool :=
  let parts := splitOnChar ';' link
  parts.length == 2 && pyStripWs (parts.getD 1 "") == "rel=\"next\""

/-- `_get_next_page_link`: scan the comma-separated segments of the `Link`
header in order, and on the first match return `parts[0].strip("<>")`
(the `break` makes the first matching segment win); otherwise `None`. -/
def get_next_page_link (link_header : String) : Option String :=
  ((splitOnChar ',' link_header).find? linkMatches).map
    fun link => stripAngle ((splitOnChar ';' link).getD 0 "")

/-- Python truthiness of `next_link : Optional[str]`: `None` and `""` are
falsy. -/
def strOptTruthy : Option String → Bool
  | none => false
  | some s => s != ""

/-- One transport response observed by `_get_paginated`: its `Link` header
and its decoded body (kept abstract as a tag, the loop only forwards it). -/
structure PageResp where
  linkHeader : String
  body : Nat
deriving DecidableEq

/-- The `while next_link:` loop of `_get_paginated`, run against a trace of
transport responses (one consumed per `self.cfs.get`).  Returns the URLs the
loop passed to `self.cfs.get` in order, and the bodies it yielded.  The source
issues every request as `self.cfs.get(url, params=params, headers=...)` with
`url` the original relative argument — the computed `next_link` is only the
loop condition — so the recorded request URL is always `url`.  The rate-limit
check after each yield performs no requests and is elided. -/
def get_paginated_requests (url : String) (nl : Option String) :
    List PageResp → List String × List Nat
  | [] => ([], [])
  | r :: rest =>
    if strOptTruthy nl then
      let t := get_paginated_requests url (get_next_page_link r.linkHeader) rest
      (url :: t.1, r.body :: t.2)
    else ([], [])

/-- `_get_paginated(url, params, resume)`: the initial `next_link` is
`BASE_URL + url`, with `?max_id=<resume>` appended when a resume cursor is
given, then the loop above runs. -/
def get_paginated_run (url : String) (resume : Option String)
    (resps : List PageResp) : List String × List Nat :=
  let next0 := TruthSocial_BASE_URL ++ url ++
    (match resume with
     | some cursor => "?max_id=" ++ cursor
     | none => "")
  get_paginated_requests url (some next0) resps

/-! ## api.py : media upload handling and the post payload -/

/-- Python `s.isdigit()` (ASCII range): non-empty and all digits. -/
def pyIsDigit (s : String) : Bool :=
  s != "" && s.toList.all Char.isDigit

/-- Python `int(s)` on a digit string (base-ten value of the digits). -/
def pyIntOfDigits (s : String) : Int :=
  Int.ofNat (s.toList.foldl (fun n c => 10 * n + (c.toNat - 48)) 0)

/-- The loop body of `_handle_media_upload`, with the transport behaviour of
`upload_media` supplied as the function `upload` (a failing upload would raise
out of `send_post`; the claims about media resolution concern which
references trigger an upload request, so `upload` is the successful-response
mapping).  Returns the accumulated `media_ids` and the list of file paths for
which an upload request was issued, in order. -/
def handleMediaGo (upload : String → MediaResponse) :
    List String → List JValue × List String
  | [] => ([], [])
  | media_file :: rest =>
    let t := handleMediaGo upload rest
    if pyIsDigit media_file then
      (JValue.num (pyIntOfDigits media_file) :: t.1, t.2)
    else
      let media_response := upload media_file
      if optTruthy media_response.id then
        (media_response.id.getD JValue.null :: t.1, media_file :: t.2)
      else
        (t.1, media_file :: t.2)

/-- `_handle_media_upload(media_files)`: `None` (or an empty list) yields no
ids and no uploads; otherwise the loop above runs. -/
def handle_media_upload (upload : String → MediaResponse) :
    Option (List String) → List JValue × List String
  | none => ([], [])
  | some media_files => handleMediaGo upload media_files

/-- The payload dict built by `_build_post_payload`. -/
structure PostPayload where
  status : String
  media_ids : List JValue
  visibility : String
  content_type : JValue
  in_reply_to_id : Option JValue
  quote_id : Option JValue
  poll : Option JValue
  group_timeline_visible : JValue

/-- `_build_post_payload(content, media_ids, visibility, **kwargs)`. -/
def build_post_payload (content : String) (media_ids : List JValue)
    (visibility : String) (kwargs : List (String × JValue)) : PostPayload :=
  { status := content
    media_ids := media_ids
    visibility := visibility
    content_type := jgetD kwargs "content_type" (.str "text/plain")
    in_reply_to_id := jget kwargs "in_reply_to_id"
    quote_id := jget kwargs "quote_id"
    poll := jget kwargs "poll"
    group_timeline_visible := jgetD kwargs "group_timeline_visible" (.bool false) }

/-! ## api.py : send_post / upload_media response handling -/

/-- A transport response as observed by `send_post` / `upload_media`:
status code, raw body text, and the decoded JSON object body (the only body
shape the client maps without error). -/
structure HttpResp where
  status_code : Int
  text : String
  json : List (String × JValue)

/-- The response handling of `send_post`:
`if response.status_code != 200: raise TruthSocialAPIError(status, text)`,
otherwise `PostResponse(response.json())` (whose construction may itself
raise, see `PostResponse.ofData`). -/
def send_post_respond (resp : HttpResp) : Except PyExc PostResponse :=
  if resp.status_code ≠ 200 then
    .error (.apiError resp.status_code resp.text)
  else
    PostResponse.ofData resp.json

/-- The response handling of `upload_media`: same status check, then
`MediaResponse(response.json())` (total). -/
def upload_media_respond (resp : HttpResp) : Except PyExc MediaResponse :=
  if resp.status_code ≠ 200 then
    .error (.apiError resp.status_code resp.text)
  else
    .ok (MediaResponse.ofData resp.json)

/-! ## api.py : pull_statuses -/

/-- A status post as consumed by `pull_statuses`: the fields the loop reads
(`post["id"]` — a string in the wire format, compared with `since_id : str` —
and `post["created_at"]`). -/
structure Post where
  id : String
  created_at : String
deriving DecidableEq

/-- The outcome of one `self._get(url, params=params)` call inside
`pull_statuses`, as supplied by the transport trace:
`exc` — the call raised (`json.JSONDecodeError` or any other exception),
`errorBody` — the decoded body is a dict containing `"error"` (or some other
falsy non-list body), `page` — the decoded body is the usual JSON array of
status dicts. -/
inductive FetchOutcome where
  | exc (e : PyExc) : FetchOutcome
  | errorBody : FetchOutcome
  | page (posts : List Post) : FetchOutcome

/-- Stable insertion for descending sort by `id` (Python string comparison is
lexicographic by code point, as is Lean's `String` order): a new element goes
after every earlier element whose id is `≥` its own. -/
def insertDescById (p : Post) : List Post → List Post
  | [] => [p]
  | q :: rest =>
    if decide (q.id < p.id) then p :: q :: rest else q :: insertDescById p rest

/-- `sorted(result, key=lambda k: k["id"], reverse=True)` — a stable
descending sort by id. -/
def sortByIdDesc (posts : List Post) : List Post :=
  posts.foldl (fun acc p => insertDescById p acc) []

/-- The expression `date_parse.parse(post["created_at"])` at api.py:454.
The module imports `from dateutil.parser import parse as date_parse`, so
`date_parse` is already the parse *function*; looking up its `.parse`
attribute raises `AttributeError` for every input, before any date is
parsed.  The modelled datetime result type is `Int` (a point on a time
axis), which the surrounding code would compare with `created_after`. -/
def datetimeParseCall (_created_at : String) : Except PyExc Int :=
  .error .attributeError

/-- Truthiness of `since_id : Optional[str]` (`None` and `""` are falsy). -/
def sinceIdTruthy : Option String → Bool
  | none => false
  | some s => s != ""

/-- The `for post in posts:` body of `pull_statuses`.  Returns the posts
yielded from this page, whether `keep_going` survived the page (the cutoff
branch sets it to `False` and breaks), and an exception if one escaped (the
body runs outside the `try`, so it propagates to the caller).  For each post
the code first stamps `_pulled` (elided: the claims do not read it), then
evaluates `date_parse.parse(post["created_at"])`, then tests
`(created_after and post_at <= created_after) or (since_id and post["id"] <=
since_id)`: on the cutoff it breaks without yielding the triggering post. -/
def processPosts (created_after : Option Int) (since_id : Option String) :
    List Post → List Post × Bool × Option PyExc
  | [] => ([], true, none)
  | post :: rest =>
    match datetimeParseCall post.created_at with
    | .error e => ([], true, some e)
    | .ok post_at =>
      if (match created_after with
          | some cutoff => decide (post_at ≤ cutoff)
          | none => false) ||
         (sinceIdTruthy since_id && post.id ≤ (since_id.getD "")) then
        ([], false, none)
      else
        let t := processPosts created_after since_id rest
        (post :: t.1, t.2.1, t.2.2)

/-- The `while keep_going:` loop of `pull_statuses`, run against a trace of
fetch outcomes (one per `self._get`).  Returns the yielded posts in order and
the exception that escaped the generator, if any (`none` means the sequence
ended normally).  A raised fetch is caught, logged and breaks; a body that is
falsy or contains `"error"` is logged and breaks; otherwise the page is
sorted descending by id (`params["max_id"]` is updated from its last element;
request construction is elided because the trace supplies the outcomes),
`pinned` clears `keep_going` after the first page, and the posts are
processed as in `processPosts`. -/
def pull_statuses_run (created_after : Option Int) (since_id : Option String)
    (pinned : Bool) : List FetchOutcome → List Post × Option PyExc
  | [] => ([], none)
  | f :: rest =>
    match f with
    | .exc _ => ([], none)
    | .errorBody => ([], none)
    | .page ps =>
      if ps.isEmpty then ([], none)
      else
        let posts := sortByIdDesc ps
        let t := processPosts created_after since_id posts
        match t.2.2 with
        | some e => (t.1, some e)
        | none =>
          if !pinned && t.2.1 then
            let u := pull_statuses_run created_after since_id pinned rest
            (t.1 ++ u.1, u.2)
          else (t.1, none)

/-! ## api.py : search -/

/-- A decoded search response body, reduced to the truthiness of its dict
values (`resp.values()`): the loop only tests `not resp` (empty dict) and
`all(not value for value in resp.values())`. -/
def searchFalsy (resp : List Bool) : Bool :=
  resp.isEmpty || resp.all fun v => !v

/-- The `while offset < limit:` loop of `search`, run against a trace of
decoded responses (one per `self._get` on `/api/v2/search`).  Returns the
offsets at which requests were issued (each request's params carry the
current `offset` and page size `limit`) and the responses yielded.  Per
iteration: request, `offset += limit`, then break on a falsy page *without*
yielding it, else yield. -/
def searchRun (offset limit : Int) : List (List Bool) → List Int × List (List Bool)
  | [] => ([], [])
  | p :: rest =>
    if offset < limit then
      if searchFalsy p then ([offset], [])
      else
        let t := searchRun (offset + limit) limit rest
        (offset :: t.1, p :: t.2)
    else ([], [])

/-! ## api.py : per-operation state wrappers

Each public operation, written as explicit state passing over `Client`
(the sole shared mutable state, `self.headers`): it returns the client state
it leaves behind, the header dict it handed to the transport, and its result.
No method of the source assigns to `self.headers`; `send_post` is the only
one that derives a different request-header dict, via the per-request merge
`{**self.headers, "Content-Type": "application/json"}`. -/

/-- `send_post`: POSTs with the merged per-request header dict. -/
def send_post_op (c : Client) (resp : HttpResp) :
    Client × List (String × String) × Except PyExc PostResponse :=
  (c, dictUpdate c.headers "Content-Type" "application/json", send_post_respond resp)

/-- `upload_media`: POSTs with `self.headers`. -/
def upload_media_op (c : Client) (resp : HttpResp) :
    Client × List (String × String) × Except PyExc MediaResponse :=
  (c, c.headers, upload_media_respond resp)

/-- `lookup`: a single `_get` with `self.headers`, returning the decoded
body. -/
def lookup_op (c : Client) (body : JValue) :
    Client × List (String × String) × JValue :=
  (c, c.headers, body)

/-- The misc thin GET wrappers (`trending`, `tags`, `suggested`,
`group_tags`, `group_posts`): a single `_get` with `self.headers`. -/
def get_op (c : Client) (body : JValue) :
    Client × List (String × String) × JValue :=
  (c, c.headers, body)

/-- `_get_paginated`: every request uses `self.headers`. -/
def get_paginated_op (c : Client) (url : String) (resume : Option String)
    (resps : List PageResp) :
    Client × List (String × String) × (List String × List Nat) :=
  (c, c.headers, get_paginated_run url resume resps)

/-- `pull_statuses`: every `_get` uses `self.headers`. -/
def pull_statuses_op (c : Client) (created_after : Option Int)
    (since_id : Option String) (pinned : Bool) (fetches : List FetchOutcome) :
    Client × List (String × String) × (List Post × Option PyExc) :=
  (c, c.headers, pull_statuses_run created_after since_id pinned fetches)

/-- `search`: every `_get` uses `self.headers`. -/
def search_op (c : Client) (offset limit : Int) (pages : List (List Bool)) :
    Client × List (String × String) × (List Int × List (List Bool)) :=
  (c, c.headers, searchRun offset limit pages)

/-! ## Concrete instances used by witnesses -/

/-- The expected-key list of `PostResponse.__init__` (every key the
constructor reads from the payload). -/
def postResponseKeys : List String :=
  ["id", "created_at", "content", "visibility", "url", "replies_count",
   "reblogs_count", "favourites_count", "application", "tags", "account"]

/-- The expected-key list of `MediaResponse.__init__`. -/
def mediaResponseKeys : List String :=
  ["id", "type", "url", "preview_url", "text_url", "meta"]

/-- A transport stub whose uploads always answer with media id `7`. -/
def uploadConst7 : String → MediaResponse :=
  fun _ => ⟨some (.num 7), none, none, none, none, none⟩

/-- The client produced by `TruthSocial("tok")`. -/
def clientTok : Client :=
  ⟨[("Accept", "*/*"),
    ("User-Agent", TruthSocial_UA),
    ("Authorization", "Bearer tok"),
    ("Origin", TruthSocial_BASE_URL),
    ("Referer", TruthSocial_BASE_URL)]⟩

/-- The `PostResponse` mapped from the spec's example 200 body
`{id: 1, content: "X", visibility: "public", url: "u"}`. -/
def postRespX : PostResponse :=
  ⟨some (.num 1), none, some (.str "X"), some (.str "public"), some (.str "u"),
   none, none, none, none, [],
   [("username", none), ("id", none), ("url", none), ("created_at", none),
    ("statuses_count", none)]⟩

/-! ## Theorems -/

/-- C1 (claim refuted — bug in the source): the claim says each request after
the first GETs the next-page URL extracted from the previous response's
`Link` header, and that a resume cursor makes the first request carry
`max_id=<resume>`.  In the source, `_get_paginated` issues *every* request as
`self.cfs.get(url, ...)` with the original relative `url` argument; the
computed `next_link` (which holds `BASE_URL + url + "?max_id=<resume>"` and
later the extracted header link) is only the loop condition and is never
requested.  Here: with `resume = "99"` and a first response whose header
points at `.../followers?max_id=5`, both issued requests are the bare
relative URL — not the extracted link, and without `max_id`. -/
theorem c1_paginated_requests_ignore_next_link :
    get_paginated_run "/api/v1/accounts/1/followers" (some "99")
      [⟨"<https://truthsocial.com/api/v1/accounts/1/followers?max_id=5>; rel=\"next\"", 0⟩,
       ⟨"", 1⟩]
      = (["/api/v1/accounts/1/followers", "/api/v1/accounts/1/followers"], [0, 1]) ∧
    get_next_page_link
        "<https://truthsocial.com/api/v1/accounts/1/followers?max_id=5>; rel=\"next\""
      = some "https://truthsocial.com/api/v1/accounts/1/followers?max_id=5" ∧
    "/api/v1/accounts/1/followers"
      ≠ "https://truthsocial.com/api/v1/accounts/1/followers?max_id=5" ∧
    "/api/v1/accounts/1/followers"
      ≠ TruthSocial_BASE_URL ++ "/api/v1/accounts/1/followers" ++ "?max_id=99" := by
  exact ⟨by decide, by decide, by decide, by decide⟩

/-- C2 (claim refuted — bug in the source): exceptions raised by the fetch
itself are indeed caught, logged and end the sequence (first two conjuncts).
But the per-post body runs outside the `try`, and it evaluates
`date_parse.parse(post["created_at"])` where `date_parse` *is* the imported
`parse` function, so the attribute lookup raises `AttributeError` on the very
first post of any successful non-empty page, and that exception propagates to
the caller instead of merely ending the sequence (third conjunct). -/
theorem c2_pull_statuses_exception_escapes :
    pull_statuses_run none none false [.exc .jsonDecodeError] = ([], none) ∧
    pull_statuses_run none none false [.exc .otherError] = ([], none) ∧
    pull_statuses_run none none false
      [.page [⟨"110", "2024-05-01T00:00:00+00:00"⟩]] = ([], some .attributeError) := by
  exact ⟨rfl, rfl, rfl⟩

/-- C3 (claim refuted — bug in the source): the cutoff test
`(created_after and post_at <= created_after) or (since_id and post["id"] <=
since_id)` and the pinned one-page stop are both dead code: every post first
passes through `date_parse.parse(post["created_at"])`, which raises
`AttributeError` (the module imported the `parse` function under the name
`date_parse`, so `.parse` does not exist on it).  With a `created_after`
cutoff, with a `since_id` watermark at or above the post's id, and in
pinned-only mode, the run raises instead of terminating cleanly. -/
theorem c3_pull_statuses_cutoff_unreachable :
    pull_statuses_run (some 1700000000) none false
      [.page [⟨"110", "2023-01-01T00:00:00+00:00"⟩]] = ([], some .attributeError) ∧
    pull_statuses_run none (some "200") false
      [.page [⟨"110", "2023-01-01T00:00:00+00:00"⟩]] = ([], some .attributeError) ∧
    pull_statuses_run none none true
      [.page [⟨"110", "2023-01-01T00:00:00+00:00"⟩]] = ([], some .attributeError) := by
  exact ⟨rfl, rfl, rfl⟩

/-- C7: constructing the client with an empty bearer token always raises
`ValueError("Bearer token is required")`; for every non-empty token the
construction succeeds and the stored `Authorization` header equals
`Bearer <token>`. -/
theorem c7_init_token_validation (auth_bearer : String) :
    (auth_bearer = "" →
      TruthSocial_init auth_bearer =
        .error (.valueError "Bearer token is required")) ∧
    (auth_bearer ≠ "" →
      ∃ c, TruthSocial_init auth_bearer = .ok c ∧
        dictGet c.headers "Authorization" = some ("Bearer " ++ auth_bearer)) := by
  constructor
  · intro h
    simp [TruthSocial_init, h]
  · intro h
    refine ⟨⟨[("Accept", "*/*"),
              ("User-Agent", TruthSocial_UA),
              ("Authorization", "Bearer " ++ auth_bearer),
              ("Origin", TruthSocial_BASE_URL),
              ("Referer", TruthSocial_BASE_URL)]⟩, ?_, rfl⟩
    simp [TruthSocial_init, h]

/-- Witness for C7: the empty token fails, the token `"tok"` succeeds with
`Authorization: Bearer tok`. -/
theorem c7_init_token_validation_witness :
    TruthSocial_init "" = .error (.valueError "Bearer token is required") ∧
    ∃ c, TruthSocial_init "tok" = .ok c ∧
      dictGet c.headers "Authorization" = some ("Bearer " ++ "tok") :=
  ⟨(c7_init_token_validation "").1 rfl,
   (c7_init_token_validation "tok").2 (by decide)⟩

/-- C10: constructing `PostResponse` or `MediaResponse` from a payload in
which every expected key is absent succeeds, with every plain field `None`,
`tags` the empty list, `application` `None`, and `account` the dict of five
`None` entries. -/
theorem c10_absent_keys_map_to_none (dp dm : List (String × JValue))
    (hp : ∀ k ∈ postResponseKeys, jget dp k = none)
    (hm : ∀ k ∈ mediaResponseKeys, jget dm k = none) :
    PostResponse.ofData dp =
      .ok ⟨none, none, none, none, none, none, none, none, none, [],
           [("username", none), ("id", none), ("url", none),
            ("created_at", none), ("statuses_count", none)]⟩ ∧
    MediaResponse.ofData dm = ⟨none, none, none, none, none, none⟩ := by
  constructor
  · unfold PostResponse.ofData
    rw [jgetD, hp "application" (by decide), jgetD, hp "tags" (by decide),
        jgetD, hp "account" (by decide),
        hp "id" (by decide), hp "created_at" (by decide),
        hp "content" (by decide), hp "visibility" (by decide),
        hp "url" (by decide), hp "replies_count" (by decide),
        hp "reblogs_count" (by decide), hp "favourites_count" (by decide)]
    rfl
  · unfold MediaResponse.ofData
    rw [hm "id" (by decide), hm "type" (by decide), hm "url" (by decide),
        hm "preview_url" (by decide), hm "text_url" (by decide),
        hm "meta" (by decide)]

/-- Witness for C10: construction from the empty dict. -/
theorem c10_absent_keys_map_to_none_witness :
    PostResponse.ofData [] =
      .ok ⟨none, none, none, none, none, none, none, none, none, [],
           [("username", none), ("id", none), ("url", none),
            ("created_at", none), ("statuses_count", none)]⟩ ∧
    MediaResponse.ofData [] = ⟨none, none, none, none, none, none⟩ :=
  c10_absent_keys_map_to_none [] [] (fun _ _ => rfl) (fun _ _ => rfl)

/-- Helper: when `PostResponse.__init__` succeeds, the four fields of the
spec's example are exactly the payload lookups. -/
theorem PostResponse.ofData_fields (d : List (String × JValue)) (r : PostResponse)
    (h : PostResponse.ofData d = .ok r) :
    r.id = jget d "id" ∧ r.content = jget d "content" ∧
    r.visibility = jget d "visibility" ∧ r.url = jget d "url" := by
  unfold PostResponse.ofData at h
  cases h1 : pyDictGet (jgetD d "application" (.obj [])) "name" with
  | error e => rw [h1] at h; simp at h
  | ok app =>
    rw [h1] at h
    cases h2 : tagNames (jgetD d "tags" (.arr [])) with
    | error e => rw [h2] at h; simp at h
    | ok tagList =>
      rw [h2] at h
      cases h3 : accountSummary (jgetD d "account" (.obj [])) with
      | error e => rw [h3] at h; simp at h
      | ok acct =>
        rw [h3] at h
        simp only [Except.ok.injEq] at h
        subst h
        exact ⟨rfl, rfl, rfl, rfl⟩

/-- C6 (amended): any non-200 response to `send_post` or `upload_media`
raises `TruthSocialAPIError` carrying the status code and the raw body text;
a 200 response to `upload_media` returns the body mapped to a
`MediaResponse` whose `id` is the payload's `id`; a 200 response to
`send_post` returns the mapped `PostResponse`, with fields matching the
payload, *provided* the construction of the `PostResponse` from the body
itself raises nothing — `send_post` does not raise on its own account on a
200 status, but the construction can raise (see `c6_counterexample` for a
200 body on which it does). -/
theorem c6_response_handling (resp : HttpResp) (r : PostResponse) :
    (resp.status_code ≠ 200 →
      send_post_respond resp = .error (.apiError resp.status_code resp.text) ∧
      upload_media_respond resp = .error (.apiError resp.status_code resp.text)) ∧
    (resp.status_code = 200 →
      upload_media_respond resp = .ok (MediaResponse.ofData resp.json) ∧
      (MediaResponse.ofData resp.json).id = jget resp.json "id" ∧
      (PostResponse.ofData resp.json = .ok r →
        send_post_respond resp = .ok r ∧ r.id = jget resp.json "id" ∧
        r.content = jget resp.json "content" ∧
        r.visibility = jget resp.json "visibility" ∧
        r.url = jget resp.json "url")) := by
  constructor
  · intro h
    constructor
    · simp [send_post_respond, h]
    · simp [upload_media_respond, h]
  · intro h
    refine ⟨by simp [upload_media_respond, h], rfl, ?_⟩
    intro hok
    have hf := PostResponse.ofData_fields resp.json r hok
    exact ⟨by simp [send_post_respond, h, hok], hf.1, hf.2.1, hf.2.2.1, hf.2.2.2⟩

/-- Counterexample to C6 as stated: the claim says a 200 response raises
nothing, but a 200 response whose body is `{"application": null}` raises
`AttributeError` from `PostResponse.__init__` (`data.get("application", {})`
returns the stored `None`, and `None.get("name")` has no `.get`). -/
theorem c6_counterexample :
    send_post_respond ⟨200, "", [("application", JValue.null)]⟩ =
      .error .attributeError := rfl

/-- Witness for C6 at the spec's examples: a 200 body
`{id: 1, content: "X", visibility: "public", url: "u"}` maps to a
`PostResponse` with matching fields, and a 400 response with body
"Bad Request" raises the API error carrying 400 and "Bad Request". -/
theorem c6_response_handling_witness :
    send_post_respond ⟨200, "",
        [("id", .num 1), ("content", .str "X"),
         ("visibility", .str "public"), ("url", .str "u")]⟩ = .ok postRespX ∧
    postRespX.id = some (.num 1) ∧ postRespX.content = some (.str "X") ∧
    postRespX.visibility = some (.str "public") ∧ postRespX.url = some (.str "u") ∧
    send_post_respond ⟨400, "Bad Request", []⟩ =
      .error (.apiError 400 "Bad Request") ∧
    upload_media_respond ⟨400, "Bad Request", []⟩ =
      .error (.apiError 400 "Bad Request") := by
  have h200 := (c6_response_handling ⟨200, "",
    [("id", .num 1), ("content", .str "X"),
     ("visibility", .str "public"), ("url", .str "u")]⟩ postRespX).2 rfl
  have hpost := h200.2.2 rfl
  have h400 := (c6_response_handling ⟨400, "Bad Request", []⟩ postRespX).1 (by decide)
  exact ⟨hpost.1, hpost.2.1, hpost.2.2.1, hpost.2.2.2.1, hpost.2.2.2.2,
         h400.1, h400.2⟩

/-- Helper: `List.find?` returns the first match of a decomposed list. -/
theorem find?_first_match {α : Type} (p : α → Bool) (pre : List α) (y : α)
    (post : List α) (hpre : ∀ x ∈ pre, p x = false) (hy : p y = true) :
    (pre ++ y :: post).find? p = some y := by
  induction pre with
  | nil => simp [List.find?, hy]
  | cons a rest ih =>
    have ha : p a = false := hpre a (by simp)
    simp only [List.cons_append, List.find?_cons, ha]
    exact ih fun x hx => hpre x (by simp [hx])

/-- C5 (amended): `_get_next_page_link` returns `None` exactly when no
comma-segment of the header has exactly two `;`-separated parts with the
second, whitespace-trimmed, equal to `rel="next"`; when matching segments
exist the first one wins, and the extracted value is that segment's part
before the `;` with `<`/`>` characters stripped from its two ends only —
surrounding whitespace is *not* removed, so a matching segment that follows
a comma-and-space keeps its leading space and `<` (see `c5_counterexample`).
The paginated loop stops issuing requests exactly when the extracted value
is `None` or the empty string (Python falsiness of `next_link`). -/
theorem c5_next_link_extraction (header : String) :
    (get_next_page_link header = none ↔
      ∀ l ∈ splitOnChar ',' header, linkMatches l = false) ∧
    (∀ pre seg post, splitOnChar ',' header = pre ++ seg :: post →
      (∀ l ∈ pre, linkMatches l = false) → linkMatches seg = true →
      get_next_page_link header =
        some (stripAngle ((splitOnChar ';' seg).getD 0 ""))) ∧
    (∀ url resps, strOptTruthy (get_next_page_link header) = false →
      get_paginated_requests url (get_next_page_link header) resps = ([], [])) ∧
    (∀ url r rest, strOptTruthy (get_next_page_link header) = true →
      (get_paginated_requests url (get_next_page_link header) (r :: rest)).1 =
        url :: (get_paginated_requests url (get_next_page_link r.linkHeader) rest).1) := by
  refine ⟨?_, ?_, ?_, ?_⟩
  · rw [get_next_page_link, Option.map_eq_none']
    rw [List.find?_eq_none]
    constructor
    · intro h l hl
      simpa using h l hl
    · intro h l hl
      simp [h l hl]
  · intro pre seg post hsplit hpre hseg
    rw [get_next_page_link, hsplit, find?_first_match linkMatches pre seg post hpre hseg]
    rfl
  · intro url resps hfalse
    cases resps with
    | nil => rfl
    | cons r rest => simp [get_paginated_requests, hfalse]
  · intro url r rest htrue
    simp [get_paginated_requests, htrue]

/-- Counterexample to C5 as stated: the claim says the first matching
segment's URL, stripped of angle brackets, is extracted; on the standard
mixed header `<a>; rel="prev", <b>; rel="next"` the matching segment follows
a comma and space, `" <b>".strip("<>")` stops at the leading space, and the
extracted cursor is `" <b"`, not the URL `"b"`. -/
theorem c5_counterexample :
    get_next_page_link "<a>; rel=\"prev\", <b>; rel=\"next\"" = some " <b" ∧
    some " <b" ≠ some "b" := ⟨rfl, by decide⟩

/-- Witness for C5 on a concrete mixed-rel header: the first (and only)
matching segment is the second one, and its extraction keeps the leading
space and angle bracket. -/
theorem c5_next_link_extraction_witness :
    get_next_page_link "<u1>; rel=\"prev\", <u2>; rel=\"next\"" = some " <u2" := by
  have h := (c5_next_link_extraction "<u1>; rel=\"prev\", <u2>; rel=\"next\"").2.1
    ["<u1>; rel=\"prev\""] " <u2>; rel=\"next\"" [] (by decide) (by decide) (by decide)
  rw [h]
  rfl

/-- C8: in `_handle_media_upload`, exactly the non-numeric references
trigger an upload request (first conjunct); when every upload answers with a
truthy id, the resulting `media_ids` list maps each numeric reference to its
integer value and each non-numeric reference to the id returned by its
upload (second conjunct); and `_build_post_payload` forwards that list
unchanged as the payload's `media_ids` (third conjunct). -/
theorem c8_media_resolution (upload : String → MediaResponse)
    (files : List String) (content visibility : String)
    (kwargs : List (String × JValue)) :
    (handle_media_upload upload (some files)).2 =
      files.filter (fun f => !pyIsDigit f) ∧
    ((∀ f ∈ files, pyIsDigit f = false → optTruthy (upload f).id = true) →
      (handle_media_upload upload (some files)).1 =
        files.map (fun f => if pyIsDigit f then JValue.num (pyIntOfDigits f)
                            else (upload f).id.getD JValue.null)) ∧
    (build_post_payload content (handle_media_upload upload (some files)).1
        visibility kwargs).media_ids = (handle_media_upload upload (some files)).1 := by
  refine ⟨?_, ?_, rfl⟩
  · show (handleMediaGo upload files).2 = _
    induction files with
    | nil => rfl
    | cons f rest ih =>
      by_cases hd : pyIsDigit f
      · simp [handleMediaGo, hd, List.filter, ih]
      · have hd' : pyIsDigit f = false := by simpa using hd
        by_cases ht : optTruthy (upload f).id
        · simp [handleMediaGo, hd', ht, List.filter, ih]
        · have ht' : optTruthy (upload f).id = false := by simpa using ht
          simp [handleMediaGo, hd', ht', List.filter, ih]
  · intro hids
    show (handleMediaGo upload files).1 = _
    induction files with
    | nil => rfl
    | cons f rest ih =>
      have ihr := ih fun g hg => hids g (by simp [hg])
      by_cases hd : pyIsDigit f
      · simp [handleMediaGo, hd, ihr]
      · have hd' : pyIsDigit f = false := by simpa using hd
        have ht : optTruthy (upload f).id = true := hids f (by simp) hd'
        simp [handleMediaGo, hd', ht, ihr]

/-- Witness for C8: with an upload stub answering id `7`, the reference list
`["123", "pic.jpg"]` uploads only `"pic.jpg"`, and the payload ids are the
integer `123` followed by the uploaded id `7`. -/
theorem c8_media_resolution_witness :
    (handle_media_upload uploadConst7 (some ["123", "pic.jpg"])).2 = ["pic.jpg"] ∧
    (handle_media_upload uploadConst7 (some ["123", "pic.jpg"])).1 =
      [JValue.num 123, JValue.num 7] := by
  have h := c8_media_resolution uploadConst7 ["123", "pic.jpg"] "hello" "public" []
  constructor
  · rw [h.1]
    rfl
  · rw [h.2.1 ?uploadsOk]
    · rfl
    case uploadsOk =>
      intro f hf hd
      simp only [List.mem_cons, List.not_mem_nil, or_false] at hf
      rcases hf with rfl | rfl
      · exact absurd hd (by decide)
      · rfl

/-- C9: the header set is fixed at construction and left unchanged by every
operation: for a client built by the constructor, each operation
(`send_post`, `upload_media`, `lookup`, the misc GETs, `_get_paginated`,
`pull_statuses`, `search`) leaves `self.headers` equal to the constructed
value and hands exactly `self.headers` to the transport — except
`send_post`, which hands the per-request copy
`{**self.headers, "Content-Type": "application/json"}` while the stored
headers contain no `Content-Type` entry. -/
theorem c9_headers_fixed (auth_bearer : String) (hb : auth_bearer ≠ "")
    (c : Client) (hc : TruthSocial_init auth_bearer = .ok c)
    (resp resp2 : HttpResp) (body body2 : JValue) (url : String)
    (resume : Option String) (resps : List PageResp)
    (created_after : Option Int) (since_id : Option String) (pinned : Bool)
    (fetches : List FetchOutcome) (offset limit : Int)
    (pages : List (List Bool)) :
    (send_post_op c resp).1 = c ∧
    (send_post_op c resp).2.1 =
      c.headers ++ [("Content-Type", "application/json")] ∧
    dictGet c.headers "Content-Type" = none ∧
    (upload_media_op c resp2).1 = c ∧
    (upload_media_op c resp2).2.1 = c.headers ∧
    (lookup_op c body).1 = c ∧ (lookup_op c body).2.1 = c.headers ∧
    (get_op c body2).1 = c ∧ (get_op c body2).2.1 = c.headers ∧
    (get_paginated_op c url resume resps).1 = c ∧
    (get_paginated_op c url resume resps).2.1 = c.headers ∧
    (pull_statuses_op c created_after since_id pinned fetches).1 = c ∧
    (pull_statuses_op c created_after since_id pinned fetches).2.1 = c.headers ∧
    (search_op c offset limit pages).1 = c ∧
    (search_op c offset limit pages).2.1 = c.headers := by
  rw [TruthSocial_init, if_neg hb] at hc
  simp only [Except.ok.injEq] at hc
  subst hc
  exact ⟨rfl, rfl, rfl, rfl, rfl, rfl, rfl, rfl, rfl, rfl, rfl, rfl, rfl,
         rfl, rfl⟩

/-- Witness for C9 at the token `"tok"`: `send_post` leaves the stored
headers untouched and uses the per-request copy with `Content-Type`. -/
theorem c9_headers_fixed_witness :
    (send_post_op clientTok ⟨400, "Bad Request", []⟩).1 = clientTok ∧
    (send_post_op clientTok ⟨400, "Bad Request", []⟩).2.1 =
      clientTok.headers ++ [("Content-Type", "application/json")] ∧
    dictGet clientTok.headers "Content-Type" = none := by
  have h := c9_headers_fixed "tok" (by decide) clientTok rfl
    ⟨400, "Bad Request", []⟩ ⟨400, "Bad Request", []⟩ .null .null "/u" none []
    none none false [] 0 40 []
  exact ⟨h.1, h.2.1, h.2.2.1⟩

/-- C4: `search` loops while the offset counter is below the limit, issuing
one request per iteration and incrementing the offset by the page size
(`limit`, the value sent as the page-size parameter) each time; when the
page fetched at step `k` is empty or has all-falsy values, the loop breaks
without yielding that page — even when the incremented offset is still below
the limit — having yielded exactly the earlier pages.  The second conjunct:
when the offset has reached the limit the loop body never runs. -/
theorem c4_search_loop (offset limit : Int) (pages : List (List Bool)) (k : Nat)
    (hk : k < pages.length)
    (htruthy : ∀ j, j < k → searchFalsy (pages.getD j []) = false)
    (hfalsy : searchFalsy (pages.getD k []) = true)
    (hoff : ∀ i : Nat, i ≤ k → offset + (i : Int) * limit < limit) :
    searchRun offset limit pages =
      ((List.range (k + 1)).map (fun i : Nat => offset + (i : Int) * limit),
       pages.take k) ∧
    ∀ off2 : Int, limit ≤ off2 → searchRun off2 limit pages = ([], []) := by
  constructor
  · induction k generalizing offset pages with
    | zero =>
      cases pages with
      | nil => simp at hk
      | cons p rest =>
        have h0 : offset < limit := by simpa using hoff 0 (Nat.le_refl 0)
        have hp : searchFalsy p = true := by
          simpa [List.getD_cons_zero] using hfalsy
        simp [searchRun, h0, hp, List.range_succ]
    | succ k ih =>
      cases pages with
      | nil => simp at hk
      | cons p rest =>
        have h0 : offset < limit := by simpa using hoff 0 (Nat.zero_le _)
        have hp : searchFalsy p = false := by
          simpa [List.getD_cons_zero] using htruthy 0 (Nat.succ_pos k)
        have hk' : k < rest.length := by simpa using hk
        have htr' : ∀ j, j < k → searchFalsy (rest.getD j []) = false := by
          intro j hj
          simpa [List.getD_cons_succ] using htruthy (j + 1) (by omega)
        have hfa' : searchFalsy (rest.getD k []) = true := by
          simpa [List.getD_cons_succ] using hfalsy
        have hoff' : ∀ i : Nat, i ≤ k →
            (offset + limit) + (i : Int) * limit < limit := by
          intro i hi
          have h2 := hoff (i + 1) (by omega)
          push_cast at h2
          have h3 : offset + ((i : Int) + 1) * limit =
              offset + limit + (i : Int) * limit := by ring
          linarith [h2, h3.le, h3.ge]
        have hrec := ih (offset + limit) rest hk' htr' hfa' hoff'
        have hstep : searchRun offset limit (p :: rest) =
            (offset :: (searchRun (offset + limit) limit rest).1,
             p :: (searchRun (offset + limit) limit rest).2) := by
          simp only [searchRun]
          rw [if_pos h0, hp]
          simp
        have hprog : (List.range (k + 1 + 1)).map
              (fun i : Nat => offset + (i : Int) * limit) =
            offset :: (List.range (k + 1)).map
              (fun i : Nat => offset + limit + (i : Int) * limit) := by
          rw [List.range_succ_eq_map]
          simp only [List.map_cons, List.map_map, Nat.cast_zero, zero_mul,
            add_zero]
          refine congrArg (List.cons offset) ?_
          refine List.map_congr_left ?_
          intro a _
          simp only [Function.comp_apply]
          push_cast
          ring
        rw [hstep, hrec, hprog]
        simp [List.take_succ_cons]
  · intro off2 h2
    cases pages with
    | nil => rfl
    | cons p rest => simp [searchRun, not_lt.mpr h2]

/-- Witness for C4: starting at offset `-100` with limit `40`, the loop
requests at offsets `-100` and `-60`, yields only the first (truthy) page,
and breaks on the second (falsy) page without yielding it, although the next
offset `-20` is still below the limit. -/
theorem c4_search_loop_witness :
    searchRun (-100) 40 [[true], [false], [true]] = ([-100, -60], [[true]]) ∧
    (-100 : Int) + 2 * 40 < 40 := by
  have ht : ∀ j, j < 1 →
      searchFalsy ([[true], [false], [true]].getD j []) = false := by
    intro j hj
    interval_cases j
    decide
  have ho : ∀ i : Nat, i ≤ 1 → (-100 : Int) + (i : Int) * 40 < 40 := by
    intro i hi
    interval_cases i
    · decide
    · decide
  have h := (c4_search_loop (-100) 40 [[true], [false], [true]] 1
    (by decide) ht (by decide) ho).1
  refine ⟨?_, by decide⟩
  rw [h]
  decide
